import Mathlib

/-!
# Verification of the triage-pipeline core

A shallow embedding, in Lean 4, of the decision logic of the medical-triage
repository (files `app/app.py` and `src/voice_recognition.py`), together with
theorems settling the behavioural claims about it.

Conventions of the embedding:

* Python machine floats (the classifier's probabilities and confidences) are
  modelled as rationals `ℚ`.
* Python strings are Lean `String`s; `str.strip()` is `py_strip` below.
* The Streamlit page run is modelled as a pure function from the inputs that
  drive its control flow (model availability, button state, text-area content)
  to a record of which user-visible outcomes occurred and which pipeline
  components were invoked.
* The voice module's effects (temp-file I/O, the external recognition service,
  file deletion) are modelled by an explicit environment of oracle outcomes,
  and the call returns its result together with a trace of the effects it
  performed.
-/

/-! ## Embedding of `app/app.py` -/

/-- Python's `str.strip()`: remove leading and trailing whitespace.  Modelled
directly on the character list so that it evaluates by kernel reduction. -/
def py_strip (s : String) : String :=
  String.mk (((s.data.dropWhile Char.isWhitespace).reverse.dropWhile
    Char.isWhitespace).reverse)

/-- Embedding of `load_models` (`app/app.py` lines 47–59).  The real function
returns a `(model, label-encoder)` pair, or `(None, None)` when either artifact
file is missing or unpickling raises; downstream only its truthiness is
consulted (`if model:` / `if not model:`), so the embedding returns whether a
usable pair was produced.  `svmExists` / `leExists` model the two
`os.path.exists` tests, `loadRaises` models an exception escaping the
`pickle.load` calls (caught by the `except` branch, which returns
`(None, None)`). -/
def load_models (svmExists leExists loadRaises : Bool) : Bool :=
  if !(svmExists && leExists) then false
  else if loadRaises then false
  else true

/-- Which user-visible outcomes a page run produced and which pipeline
components it invoked (`app/app.py` lines 88–261). -/
structure AppRun where
  /-- `st.stop()` was reached in the degraded-mode branch (line 91). -/
  stopped : Bool
  /-- `limpiar_texto_medico` was called (line 185). -/
  normalizerCalled : Bool
  /-- `model.predict_proba` was called (line 189). -/
  classifierCalled : Bool
  /-- `calcular_prioridad` was called (line 215). -/
  scorerCalled : Bool
  /-- `calcular_derivacion` was called (line 229). -/
  routerCalled : Bool
  /-- the "demasiado breve" warning was shown (line 180). -/
  tooBriefWarning : Bool
  /-- the "Por favor ingresa una descripción" error was shown (line 261). -/
  emptyInputError : Bool
deriving DecidableEq

/-- Embedding of the analysis control flow of the page
(`app/app.py` lines 88–91 and 177–261): the degraded-mode stop, the
`if analizar and texto_input:` / `elif analizar and not texto_input:`
dispatch, and the `len(texto_input) < 10` validation gate.  `modelAvailable`
is the truthiness of the pair returned by `load_models`; `analizar` is the
state of the "Analizar" button; `texto_input` is the text-area content
(a Python `str`, falsy exactly when empty). -/
def analyze_run (modelAvailable analizar : Bool) (texto_input : String) : AppRun :=
  if !modelAvailable then
    { stopped := true, normalizerCalled := false, classifierCalled := false,
      scorerCalled := false, routerCalled := false,
      tooBriefWarning := false, emptyInputError := false }
  else if analizar && !(texto_input == "") then
    if texto_input.length < 10 then
      { stopped := false, normalizerCalled := false, classifierCalled := false,
        scorerCalled := false, routerCalled := false,
        tooBriefWarning := true, emptyInputError := false }
    else
      { stopped := false, normalizerCalled := true, classifierCalled := true,
        scorerCalled := true, routerCalled := true,
        tooBriefWarning := false, emptyInputError := false }
  else if analizar && (texto_input == "") then
    { stopped := false, normalizerCalled := false, classifierCalled := false,
      scorerCalled := false, routerCalled := false,
      tooBriefWarning := false, emptyInputError := true }
  else
    { stopped := false, normalizerCalled := false, classifierCalled := false,
      scorerCalled := false, routerCalled := false,
      tooBriefWarning := false, emptyInputError := false }

/-- The three certainty captions of the results card. -/
inductive CertaintyBand where
  | alto
  | medio
  | bajo
deriving DecidableEq

/-- Embedding of the confidence-banding branch of the results section
(`app/app.py` lines 203–211): `if confidence > 0.8` → "Alto",
`elif confidence > 0.5` → "Medio (Revisar)", `else` → "Bajo (Requiere
valoración humana)". -/
def certainty_band (confidence : ℚ) : CertaintyBand :=
  if confidence > 8/10 then CertaintyBand.alto
  else if confidence > 5/10 then CertaintyBand.medio
  else CertaintyBand.bajo

/-! ## Theorems about the analysis control flow -/

/-- C1 (counterexample).  The claim reads the 10-character gate as applying to
the text's length *after trimming*.  The code tests `len(texto_input) < 10` on
the raw text: the input `"abcd      "` (four letters, six trailing blanks) has
trimmed length 4 < 10, yet the run shows no too-brief warning and does invoke
the classifier. -/
theorem analyze_trimmed_gate_cex :
    (py_strip "abcd      ").length < 10 ∧
    (analyze_run true true "abcd      ").tooBriefWarning = false ∧
    (analyze_run true true "abcd      ").classifierCalled = true := by
  refine ⟨?_, rfl, rfl⟩
  decide

/-- C1 (amended).  With the model loaded, an input whose *raw* length is below
10 produces the too-brief validation warning when non-empty (and the
empty-input error when empty), and in either case invokes no downstream
component: neither the normalizer, the classifier, the urgency scorer, nor the
referral router. -/
theorem analyze_short_text_validation (t : String) (hlen : t.length < 10) :
    (t ≠ "" →
      (analyze_run true true t).tooBriefWarning = true ∧
      (analyze_run true true t).emptyInputError = false) ∧
    (t = "" →
      (analyze_run true true t).emptyInputError = true ∧
      (analyze_run true true t).tooBriefWarning = false) ∧
    (analyze_run true true t).normalizerCalled = false ∧
    (analyze_run true true t).classifierCalled = false ∧
    (analyze_run true true t).scorerCalled = false ∧
    (analyze_run true true t).routerCalled = false := by
  by_cases h : t = ""
  · subst h
    refine ⟨fun hc => absurd rfl hc, fun _ => ⟨rfl, rfl⟩, rfl, rfl, rfl, rfl⟩
  · have hbe : (t == "") = false := by
      simpa [beq_iff_eq] using h
    simp only [analyze_run, hbe, hlen, Bool.not_false, Bool.and_true, Bool.and_false,
      Bool.not_true, if_true, if_false]
    simp [h, hlen]

/-- C1 (witness for the amended theorem). -/
theorem analyze_short_text_validation_witness :
    ("tos" : String).length < 10 ∧
    ((analyze_run true true "tos").tooBriefWarning = true ∧
      (analyze_run true true "tos").classifierCalled = false) := by
  have h := analyze_short_text_validation "tos" (by decide)
  exact ⟨by decide, (h.1 (by decide)).1, h.2.2.2.1⟩

/-- C2 (counterexample).  The claim keeps the urgency scorer and referral
router "independently available and operative" in degraded mode.  In the code,
when the model pair is unavailable the page calls `st.stop()` before any input
handling: on the same long request the scorer and router run with the model
available but do not run in degraded mode. -/
theorem degraded_mode_scorer_cex :
    (analyze_run false true "Paciente con dolor abdominal intenso").stopped = true ∧
    (analyze_run false true "Paciente con dolor abdominal intenso").scorerCalled = false ∧
    (analyze_run false true "Paciente con dolor abdominal intenso").routerCalled = false ∧
    (analyze_run true true "Paciente con dolor abdominal intenso").scorerCalled = true ∧
    (analyze_run true true "Paciente con dolor abdominal intenso").routerCalled = true := by
  refine ⟨rfl, rfl, rfl, ?_, ?_⟩ <;> decide

/-- C2 (amended).  When either model artifact is absent at startup,
`load_models` yields the unusable (None, None) outcome and every page run
stops in the degraded branch: classification is refused, and the urgency
scorer and referral router are not invoked either — no analysis operation
remains available. -/
theorem degraded_mode_stops_all (svmExists leExists loadRaises analizar : Bool)
    (t : String) (h : svmExists = false ∨ leExists = false) :
    load_models svmExists leExists loadRaises = false ∧
    (analyze_run (load_models svmExists leExists loadRaises) analizar t).stopped = true ∧
    (analyze_run (load_models svmExists leExists loadRaises) analizar t).classifierCalled
      = false ∧
    (analyze_run (load_models svmExists leExists loadRaises) analizar t).scorerCalled = false ∧
    (analyze_run (load_models svmExists leExists loadRaises) analizar t).routerCalled = false := by
  have hm : load_models svmExists leExists loadRaises = false := by
    rcases h with h | h <;> subst h <;> simp [load_models]
  rw [hm]
  exact ⟨rfl, rfl, rfl, rfl, rfl⟩

/-- C2 (witness). -/
theorem degraded_mode_stops_all_witness :
    load_models false true false = false ∧
    (analyze_run (load_models false true false) true "dolor intenso en el pecho").stopped
      = true := by
  have h := degraded_mode_stops_all false true false true
    "dolor intenso en el pecho" (Or.inl rfl)
  exact ⟨h.1, h.2.1⟩

/-- C3.  The confidence banding is exact: `alto` precisely above 0.8, `medio`
precisely on (0.5, 0.8], `bajo` precisely at or below 0.5; in particular the
boundary values 0.8 and 0.5 band as `medio` and `bajo`. -/
theorem certainty_band_boundaries (c : ℚ) :
    (certainty_band c = CertaintyBand.alto ↔ 8/10 < c) ∧
    (certainty_band c = CertaintyBand.medio ↔ (5/10 < c ∧ c ≤ 8/10)) ∧
    (certainty_band c = CertaintyBand.bajo ↔ c ≤ 5/10) ∧
    certainty_band (8/10) = CertaintyBand.medio ∧
    certainty_band (5/10) = CertaintyBand.bajo := by
  unfold certainty_band
  refine ⟨?_, ?_, ?_, by norm_num, by norm_num⟩
  · constructor
    · intro h
      by_contra hc
      simp only [gt_iff_lt] at h
      rw [if_neg hc] at h
      split at h <;> simp_all
    · intro h
      simp [h]
  · constructor
    · intro h
      by_cases h1 : 8/10 < c
      · simp [h1] at h
      · by_cases h2 : 5/10 < c
        · exact ⟨h2, le_of_not_lt h1⟩
        · simp [h1, h2] at h
    · rintro ⟨h1, h2⟩
      rw [if_neg (by simpa using not_lt.mpr h2), if_pos (by simpa using h1)]
  · constructor
    · intro h
      by_contra hc
      push_neg at hc
      by_cases h1 : (8/10 : ℚ) < c
      · simp [h1] at h
      · simp [h1, hc] at h
    · intro h
      have h1 : ¬ (8/10 : ℚ) < c := by
        intro hc
        exact absurd (lt_of_lt_of_le hc h) (by norm_num)
      have h2 : ¬ (5/10 : ℚ) < c := not_lt.mpr h
      simp [h1, h2]

/-- C3 (witness): the theorem applied at the concrete confidence 0.9. -/
theorem certainty_band_boundaries_witness :
    certainty_band (9/10) = CertaintyBand.alto :=
  (certainty_band_boundaries (9/10)).1.mpr (by norm_num)

/-! ## Embedding of `src/voice_recognition.py` -/

/-- The voice-recognition configuration surface
(`src/voice_recognition.py` lines 10–22): recognition language code, energy
threshold, dynamic-threshold flag, ambient-noise calibration duration.  The
module imports these from `src.config`; the embedding passes them as an
explicit argument, which models their external overridability. -/
structure VoiceConfig where
  language : String
  energyThreshold : ℕ
  dynamicThreshold : Bool
  ambientDuration : ℚ
deriving DecidableEq

/-- The default values supplied by the `except ImportError` branch
(`src/voice_recognition.py` lines 17–22), used when no external configuration
module is available. -/
def defaultVoiceConfig : VoiceConfig :=
  { language := "es-ES", energyThreshold := 4000,
    dynamicThreshold := true, ambientDuration := 1/2 }

/-- Outcome of the `recognizer.recognize_google` call, an oracle input to the
embedding: a transcript, `sr.UnknownValueError`, `sr.RequestError`, or any
other exception escaping the recognition step. -/
inductive RecOutcome where
  | recognized (text : String)
  | unknownValue
  | requestError (detail : String)
  | otherFailure (detail : String)
deriving DecidableEq

/-- The effectful environment one `transcribe_audio` call runs against:
whether writing the temp file raises (file not created), whether
opening/calibrating/recording the audio raises (file already on disk), what
the recognition service does, and whether `os.remove` raises during
cleanup. -/
structure Env where
  writeFailure : Option String
  loadFailure : Option String
  recOutcome : RecOutcome
  deleteFails : Bool
deriving DecidableEq

/-- The settings applied to the `sr.Recognizer()`
(`src/voice_recognition.py` lines 53–54). -/
structure EngineSettings where
  energyThreshold : ℕ
  dynamicThreshold : Bool
deriving DecidableEq

/-- Trace of the effects performed by one `transcribe_audio` call. -/
structure CallTrace where
  /-- whether `temp_audio.wav` still exists after the call. -/
  tempFileExists : Bool
  /-- how many times `cleanup_temp_file` was invoked during the call. -/
  cleanupCalls : ℕ
  /-- the settings applied to the recognizer, if it was configured. -/
  engine : Option EngineSettings
  /-- the duration passed to `adjust_for_ambient_noise`, if reached. -/
  ambientApplied : Option ℚ
  /-- the language passed to `recognize_google`, if the service was invoked. -/
  serviceLanguage : Option String
deriving DecidableEq

/-- Embedding of `cleanup_temp_file` (`src/voice_recognition.py` lines
82–93): attempts `os.remove` when the file exists and swallows any removal
failure (`except Exception: pass`), so it never raises; returns whether the
file still exists afterwards. -/
def cleanup_temp_file (deleteFails tempFileExists : Bool) : Bool :=
  if tempFileExists then (if deleteFails then true else false) else false

/-- Embedding of `transcribe_audio` (`src/voice_recognition.py` lines 25–79).
The source writes the clip to `temp_audio.wav`, configures the recognizer
from the config values, loads and calibrates the audio, calls
`recognize_google`, and returns a `(success, text, error_message)` triple;
every failure path runs `cleanup_temp_file` and returns through one of the
`except` clauses, so the call itself never raises (hence the `Except.error`
constructor of the result type is never produced).  Branches, in source
order: a write failure or a load failure falls to the outer
`except Exception` (lines 77–79); `sr.UnknownValueError` and
`sr.RequestError` are the two inner handlers (lines 69–75); any other
recognition failure also falls to the outer handler. -/
def transcribe_audio (cfg : VoiceConfig) (language : Option String) (env : Env) :
    Except String ((Bool × Option String × Option String) × CallTrace) :=
  let lang := language.getD cfg.language
  match env.writeFailure with
  | some e =>
      Except.ok ((false, none, some ("Error procesando audio: " ++ e)),
        { tempFileExists := cleanup_temp_file env.deleteFails false,
          cleanupCalls := 1, engine := none, ambientApplied := none,
          serviceLanguage := none })
  | none =>
      let engine : EngineSettings :=
        { energyThreshold := cfg.energyThreshold,
          dynamicThreshold := cfg.dynamicThreshold }
      match env.loadFailure with
      | some e =>
          Except.ok ((false, none, some ("Error procesando audio: " ++ e)),
            { tempFileExists := cleanup_temp_file env.deleteFails true,
              cleanupCalls := 1, engine := some engine, ambientApplied := none,
              serviceLanguage := none })
      | none =>
          match env.recOutcome with
          | RecOutcome.recognized t =>
              Except.ok ((true, some t, none),
                { tempFileExists := cleanup_temp_file env.deleteFails true,
                  cleanupCalls := 1, engine := some engine,
                  ambientApplied := some cfg.ambientDuration,
                  serviceLanguage := some lang })
          | RecOutcome.unknownValue =>
              Except.ok ((false, none,
                  some "No se pudo entender el audio. Intenta hablar más claro."),
                { tempFileExists := cleanup_temp_file env.deleteFails true,
                  cleanupCalls := 1, engine := some engine,
                  ambientApplied := some cfg.ambientDuration,
                  serviceLanguage := some lang })
          | RecOutcome.requestError e =>
              Except.ok ((false, none,
                  some ("Error del servicio de reconocimiento: " ++ e)),
                { tempFileExists := cleanup_temp_file env.deleteFails true,
                  cleanupCalls := 1, engine := some engine,
                  ambientApplied := some cfg.ambientDuration,
                  serviceLanguage := some lang })
          | RecOutcome.otherFailure e =>
              Except.ok ((false, none, some ("Error procesando audio: " ++ e)),
                { tempFileExists := cleanup_temp_file env.deleteFails true,
                  cleanupCalls := 1, engine := some engine,
                  ambientApplied := some cfg.ambientDuration,
                  serviceLanguage := some lang })

/-- Embedding of `append_text` (`src/voice_recognition.py` lines 96–109):
`if not current_text or current_text.strip() == "": return new_text` and
otherwise the f-string single-space join. -/
def append_text (current_text new_text : String) : String :=
  if current_text = "" ∨ py_strip current_text = "" then new_text
  else current_text ++ " " ++ new_text

/-- Modelled from the spec: the tagged `TranscriptionResult` outcome type of
§3 / §4.5.  The source returns a `(success, text, error_message)` triple;
this sum type is the spec's view of it, used to state the refinement. -/
inductive TranscriptionResult where
  | success (text : String)
  | unrecognized
  | serviceError (detail : String)
  | processingError (detail : String)
deriving DecidableEq

/-- Modelled from the spec: the tagged outcome §4.5 assigns to each behaviour
of the environment — `success` on a valid transcript, `unrecognized` when the
service could not extract any utterance, `serviceError` when the remote
service is unreachable or rejects the request, and `processingError` for any
other failure (e.g. storage I/O while writing or loading the clip). -/
def specOutcome (env : Env) : TranscriptionResult :=
  match env.writeFailure with
  | some e => TranscriptionResult.processingError e
  | none =>
    match env.loadFailure with
    | some e => TranscriptionResult.processingError e
    | none =>
      match env.recOutcome with
      | RecOutcome.recognized t => TranscriptionResult.success t
      | RecOutcome.unknownValue => TranscriptionResult.unrecognized
      | RecOutcome.requestError e => TranscriptionResult.serviceError e
      | RecOutcome.otherFailure e => TranscriptionResult.processingError e

/-- How the source renders each tagged outcome as its returned triple. -/
def renderResult : TranscriptionResult → Bool × Option String × Option String
  | TranscriptionResult.success t => (true, some t, none)
  | TranscriptionResult.unrecognized =>
      (false, none, some "No se pudo entender el audio. Intenta hablar más claro.")
  | TranscriptionResult.serviceError d =>
      (false, none, some ("Error del servicio de reconocimiento: " ++ d))
  | TranscriptionResult.processingError d =>
      (false, none, some ("Error procesando audio: " ++ d))

/-- A string with a non-empty left part stays non-empty under append. -/
theorem string_append_ne_empty (s t : String) (h : s.data ≠ []) : s ++ t ≠ "" := by
  intro he
  have : (s ++ t).data = [] := by rw [he]
  rw [String.data_append] at this
  exact h (List.append_eq_nil.mp this).1

/-! ## Theorems about the voice module -/

/-- C4.  `append_text` returns the incoming text when the existing text is
empty or whitespace-only, and otherwise the single-space join, with no
further trimming or deduplication. -/
theorem append_text_spec (existing incoming : String) :
    (py_strip existing = "" ∧ append_text existing incoming = incoming) ∨
    (py_strip existing ≠ "" ∧
      append_text existing incoming = existing ++ " " ++ incoming) := by
  by_cases hp : py_strip existing = ""
  · exact Or.inl ⟨hp, by rw [append_text, if_pos (Or.inr hp)]⟩
  · refine Or.inr ⟨hp, ?_⟩
    rw [append_text, if_neg]
    rintro (h | h)
    · subst h
      exact hp rfl
    · exact hp h

/-- C4 (witness): the two examples of the spec. -/
theorem append_text_spec_witness :
    append_text "" "fiebre alta" = "fiebre alta" ∧
    append_text "dolor abdominal" "y vómitos" = "dolor abdominal y vómitos" := by
  have h1 := append_text_spec "" "fiebre alta"
  have h2 := append_text_spec "dolor abdominal" "y vómitos"
  rcases h1 with ⟨_, h1⟩ | ⟨h1, _⟩
  · rcases h2 with ⟨h2, _⟩ | ⟨_, h2⟩
    · exact absurd h2 (by decide)
    · exact ⟨h1, h2.trans (by decide)⟩
  · exact absurd (by decide) h1

/-- C5.  On every exit path — success, each of the three failure kinds, and
any unexpected exception — `transcribe_audio` runs the cleanup exactly once,
the temp file is gone afterwards whenever removal does not itself fail, and
the call returns normally (`Except.ok`) even when removal fails: a deletion
failure is swallowed, never propagated. -/
theorem transcribe_cleanup_all_paths (cfg : VoiceConfig) (language : Option String)
    (env : Env) :
    ∃ r tr, transcribe_audio cfg language env = Except.ok (r, tr) ∧
      tr.cleanupCalls = 1 ∧
      (env.deleteFails = false → tr.tempFileExists = false) := by
  obtain ⟨wf, lf, ro, df⟩ := env
  cases wf <;> cases lf <;> cases ro <;> cases df <;>
    refine ⟨_, _, rfl, rfl, fun h => ?_⟩ <;>
    first
      | (simp at h; done)
      | simp [cleanup_temp_file]

/-- C5 (witness): a call whose service outcome is `UnknownValueError` and
whose removal succeeds leaves no temp file and still returns normally. -/
theorem transcribe_cleanup_all_paths_witness :
    ∃ r tr,
      transcribe_audio defaultVoiceConfig none
          { writeFailure := none, loadFailure := none,
            recOutcome := RecOutcome.unknownValue, deleteFails := false }
        = Except.ok (r, tr) ∧
      tr.cleanupCalls = 1 ∧ tr.tempFileExists = false := by
  obtain ⟨r, tr, h1, h2, h3⟩ := transcribe_cleanup_all_paths defaultVoiceConfig none
    { writeFailure := none, loadFailure := none,
      recOutcome := RecOutcome.unknownValue, deleteFails := false }
  exact ⟨r, tr, h1, h2, h3 rfl⟩

/-- C6.  Every `transcribe_audio` call returns exactly the rendering of one of
the four tagged outcomes — `Success(text)` on a valid transcript,
`Unrecognized` when the service could not extract any utterance,
`ServiceError(detail)` when the service is unreachable or rejects the
request, `ProcessingError(detail)` for any other failure — with the outcome
determined by what happened during the call as `specOutcome` states it. -/
theorem transcribe_tagged_outcomes (cfg : VoiceConfig) (language : Option String)
    (env : Env) :
    ∃ tr, transcribe_audio cfg language env
      = Except.ok (renderResult (specOutcome env), tr) := by
  obtain ⟨wf, lf, ro, df⟩ := env
  cases wf <;> cases lf <;> cases ro <;>
    exact ⟨_, rfl⟩

/-- C6 (witness): the theorem applied to an unparseable-audio call. -/
theorem transcribe_tagged_outcomes_witness :
    ∃ tr,
      transcribe_audio defaultVoiceConfig none
          { writeFailure := none, loadFailure := none,
            recOutcome := RecOutcome.unknownValue, deleteFails := false }
        = Except.ok
            (renderResult
              (specOutcome
                { writeFailure := none, loadFailure := none,
                  recOutcome := RecOutcome.unknownValue, deleteFails := false }),
             tr) :=
  transcribe_tagged_outcomes defaultVoiceConfig none
    { writeFailure := none, loadFailure := none,
      recOutcome := RecOutcome.unknownValue, deleteFails := false }

/-- C9.  The four configuration values default to "es-ES", 4000, `true` and
0.5 seconds, and on every call that reaches the corresponding step the
recognizer is configured with the configured energy threshold and
dynamic-threshold flag, the configured ambient duration is applied, and the
service is invoked with the given language code (the explicit argument, or
the configured language when none is given). -/
theorem transcribe_config_applied (cfg : VoiceConfig) (language : Option String)
    (env : Env) :
    defaultVoiceConfig.language = "es-ES" ∧
    defaultVoiceConfig.energyThreshold = 4000 ∧
    defaultVoiceConfig.dynamicThreshold = true ∧
    defaultVoiceConfig.ambientDuration = 1/2 ∧
    ∃ r tr, transcribe_audio cfg language env = Except.ok (r, tr) ∧
      (env.writeFailure = none →
        tr.engine = some { energyThreshold := cfg.energyThreshold,
                           dynamicThreshold := cfg.dynamicThreshold }) ∧
      (env.writeFailure = none → env.loadFailure = none →
        tr.ambientApplied = some cfg.ambientDuration ∧
        tr.serviceLanguage = some (language.getD cfg.language)) := by
  refine ⟨rfl, rfl, rfl, by norm_num [defaultVoiceConfig], ?_⟩
  obtain ⟨wf, lf, ro, df⟩ := env
  cases wf <;> cases lf <;> cases ro <;>
    refine ⟨_, _, rfl, fun h1 => ?_, fun h1 h2 => ?_⟩ <;>
    first
      | (simp at h1; done)
      | (simp at h2; done)
      | rfl
      | exact ⟨rfl, rfl⟩

/-- C9 (witness): a successful call with the default configuration and no
explicit language applies 4000 / dynamic / 0.5 and invokes the service with
"es-ES". -/
theorem transcribe_config_applied_witness :
    ∃ r tr,
      transcribe_audio defaultVoiceConfig none
          { writeFailure := none, loadFailure := none,
            recOutcome := RecOutcome.recognized "fiebre alta", deleteFails := false }
        = Except.ok (r, tr) ∧
      tr.engine = some { energyThreshold := 4000, dynamicThreshold := true } ∧
      tr.ambientApplied = some (1/2) ∧
      tr.serviceLanguage = some "es-ES" := by
  obtain ⟨-, -, -, hd, r, tr, h1, h2, h3⟩ :=
    transcribe_config_applied defaultVoiceConfig none
      { writeFailure := none, loadFailure := none,
        recOutcome := RecOutcome.recognized "fiebre alta", deleteFails := false }
  obtain ⟨ha, hl⟩ := h3 rfl rfl
  exact ⟨r, tr, h1, h2 rfl, by rw [ha]; norm_num [defaultVoiceConfig],
    by rw [hl]; rfl⟩

/-- C10.  The returned triple always satisfies: success implies a present
text and an absent error message; failure implies an absent text and a
present, non-empty error message — exactly one of the two is present. -/
theorem transcribe_triple_invariant (cfg : VoiceConfig) (language : Option String)
    (env : Env) :
    ∃ r tr, transcribe_audio cfg language env = Except.ok (r, tr) ∧
      (r.1 = true → (∃ t, r.2.1 = some t) ∧ r.2.2 = none) ∧
      (r.1 = false → r.2.1 = none ∧ ∃ m, r.2.2 = some m ∧ m ≠ "") := by
  obtain ⟨wf, lf, ro, df⟩ := env
  cases wf <;> cases lf <;> cases ro <;>
    refine ⟨_, _, rfl, fun h => ?_, fun h => ?_⟩ <;>
    first
      | (simp at h; done)
      | exact ⟨⟨_, rfl⟩, rfl⟩
      | exact ⟨rfl, _, rfl, string_append_ne_empty _ _ (by decide)⟩
      | exact ⟨rfl, _, rfl, by decide⟩

/-- C10 (witness): the invariant read off a failing and a succeeding call. -/
theorem transcribe_triple_invariant_witness :
    ∃ r tr,
      transcribe_audio defaultVoiceConfig none
          { writeFailure := some "disco lleno", loadFailure := none,
            recOutcome := RecOutcome.unknownValue, deleteFails := false }
        = Except.ok (r, tr) ∧
      r.2.1 = none ∧ ∃ m, r.2.2 = some m ∧ m ≠ "" := by
  obtain ⟨r, tr, h1, -, h3⟩ :=
    transcribe_triple_invariant defaultVoiceConfig none
      { writeFailure := some "disco lleno", loadFailure := none,
        recOutcome := RecOutcome.unknownValue, deleteFails := false }
  have e : transcribe_audio defaultVoiceConfig none
      { writeFailure := some "disco lleno", loadFailure := none,
        recOutcome := RecOutcome.unknownValue, deleteFails := false }
      = Except.ok ((false, none, some ("Error procesando audio: " ++ "disco lleno")),
        { tempFileExists := false, cleanupCalls := 1, engine := none,
          ambientApplied := none, serviceLanguage := none }) := rfl
  have h4 := e.symm.trans h1
  simp only [Except.ok.injEq, Prod.mk.injEq] at h4
  have hr : r.1 = false := by rw [← h4.1]
  exact ⟨r, tr, h1, h3 hr⟩

/-! ## Embedding of the prediction step (`np.argmax`, `app/app.py` line 190) -/

/-- Embedding of `np.argmax(pred_probs)` (`app/app.py` line 190): the index of
the maximum of the distribution, returning the **first** occurrence when the
maximum is attained several times — NumPy's documented behaviour.  The
predicted specialty is the label-decoder's entry at this index. -/
def np_argmax : List ℚ → ℕ
  | [] => 0
  | [_] => 0
  | x :: y :: ys =>
      if (y :: ys).getD (np_argmax (y :: ys)) 0 ≤ x then 0
      else np_argmax (y :: ys) + 1

theorem np_argmax_lt_length (l : List ℚ) (h : l ≠ []) : np_argmax l < l.length := by
  induction l with
  | nil => exact absurd rfl h
  | cons x xs ih =>
    cases xs with
    | nil => simp [np_argmax]
    | cons y ys =>
      simp only [np_argmax]
      split
      · simp
      · have hy := ih (by simp)
        simpa [Nat.succ_lt_succ_iff] using hy

theorem np_argmax_is_max (l : List ℚ) (j : ℕ) (hj : j < l.length) :
    l.getD j 0 ≤ l.getD (np_argmax l) 0 := by
  induction l generalizing j with
  | nil => exact absurd hj (by simp)
  | cons x xs ih =>
    cases xs with
    | nil =>
      have hj0 : j = 0 := Nat.lt_one_iff.mp (by simpa using hj)
      subst hj0
      simp [np_argmax]
    | cons y ys =>
      simp only [np_argmax]
      split
      · rename_i hmax
        cases j with
        | zero => simp
        | succ k =>
          have hk : k < (y :: ys).length := by
            simpa [Nat.succ_lt_succ_iff] using hj
          calc (x :: y :: ys).getD (k + 1) 0 = (y :: ys).getD k 0 := by
                simp [List.getD_cons_succ]
            _ ≤ (y :: ys).getD (np_argmax (y :: ys)) 0 := ih k hk
            _ ≤ x := hmax
            _ = (x :: y :: ys).getD 0 0 := by simp
      · rename_i hmax
        push_neg at hmax
        cases j with
        | zero =>
          simpa [List.getD_cons_succ] using le_of_lt hmax
        | succ k =>
          have hk : k < (y :: ys).length := by
            simpa [Nat.succ_lt_succ_iff] using hj
          simpa [List.getD_cons_succ] using ih k hk

theorem np_argmax_first_strict (l : List ℚ) (j : ℕ) (hj : j < np_argmax l) :
    l.getD j 0 < l.getD (np_argmax l) 0 := by
  induction l generalizing j with
  | nil => exact absurd hj (by simp [np_argmax])
  | cons x xs ih =>
    cases xs with
    | nil => exact absurd hj (by simp [np_argmax])
    | cons y ys =>
      simp only [np_argmax] at hj ⊢
      split
      · rename_i hmax
        rw [if_pos hmax] at hj
        exact absurd hj (Nat.not_lt_zero j)
      · rename_i hmax
        push_neg at hmax
        rw [if_neg (not_le.mpr hmax)] at hj
        cases j with
        | zero =>
          simpa [List.getD_cons_succ] using hmax
        | succ k =>
          have hk : k < np_argmax (y :: ys) := Nat.succ_lt_succ_iff.mp hj
          simpa [List.getD_cons_succ] using ih k hk

/-- C7.  The prediction index is `np.argmax` of the distribution: it is a
valid index, its probability is maximal, and among indices attaining the
maximal probability it is the lowest — the stable, deterministic
tie-break. -/
theorem np_argmax_first_max (probs : List ℚ) (h : probs ≠ []) :
    np_argmax probs < probs.length ∧
    (∀ j, j < probs.length → probs.getD j 0 ≤ probs.getD (np_argmax probs) 0) ∧
    (∀ j, j < probs.length → probs.getD j 0 = probs.getD (np_argmax probs) 0 →
      np_argmax probs ≤ j) := by
  refine ⟨np_argmax_lt_length probs h, fun j hj => np_argmax_is_max probs j hj, ?_⟩
  intro j _ he
  by_contra hlt
  push_neg at hlt
  exact absurd he (ne_of_lt (np_argmax_first_strict probs j hlt))

/-- C7 (witness): on the tied distribution `[1/2, 3/4, 3/4, 1/4]` the theorem
yields a valid maximal index that is at most the tied index 2 (indeed the
lower tied index 1). -/
theorem np_argmax_first_max_witness :
    np_argmax [(1 : ℚ)/2, 3/4, 3/4, 1/4] < 4 ∧
    np_argmax [(1 : ℚ)/2, 3/4, 3/4, 1/4] ≤ 2 := by
  have h := np_argmax_first_max [(1 : ℚ)/2, 3/4, 3/4, 1/4] (by simp)
  refine ⟨by simpa using h.1, h.2.2 2 (by norm_num) ?_⟩
  have e : np_argmax [(1 : ℚ)/2, 3/4, 3/4, 1/4] = 1 := by
    norm_num [np_argmax]
  rw [e]
  norm_num

/-! ## Embedding of the top-3 view (`np.argsort`, `app/app.py` line 250) -/

/-- The strict "value first, then original index" order in which a stable
ascending argsort lists the indices of the value assignment `v`. -/
def ascIdxLt (v : ℕ → ℚ) (i j : ℕ) : Prop :=
  v i < v j ∨ (v i = v j ∧ i < j)

/-- Embedding of `np.argsort(pred_probs)` (`app/app.py` line 250): the indices
of the distribution sorted by ascending probability.  For arrays shorter than
16 elements NumPy's default sort runs an insertion sort, which is stable, so
the embedding is the stable `List.insertionSort` over the index range. -/
def np_argsort (l : List ℚ) : List ℕ :=
  List.insertionSort (fun i j => l.getD i 0 ≤ l.getD j 0) (List.range l.length)

/-- Embedding of the top-3 view `np.argsort(pred_probs)[-3:][::-1]`
(`app/app.py` line 250): the last three indices of the ascending argsort, in
reversed order. -/
def top3_idx (l : List ℚ) : List ℕ :=
  ((np_argsort l).drop ((np_argsort l).length - 3)).reverse

theorem ascIdxLt_trans (v : ℕ → ℚ) {i j k : ℕ}
    (h1 : ascIdxLt v i j) (h2 : ascIdxLt v j k) : ascIdxLt v i k := by
  rcases h1 with h1 | ⟨e1, l1⟩ <;> rcases h2 with h2 | ⟨e2, l2⟩
  · exact Or.inl (lt_trans h1 h2)
  · exact Or.inl (lt_of_lt_of_eq h1 e2)
  · exact Or.inl (lt_of_eq_of_lt e1 h2)
  · exact Or.inr ⟨e1.trans e2, lt_trans l1 l2⟩

/-- Inserting a fresh index smaller than every index already present keeps the
accumulated list sorted in the value-then-index order: equal values keep the
earlier index first (stability of the insertion). -/
theorem orderedInsert_sorted_asc (v : ℕ → ℚ) (i : ℕ) :
    ∀ acc : List ℕ, acc.Sorted (ascIdxLt v) → (∀ j ∈ acc, i < j) →
    (List.orderedInsert (fun a b => v a ≤ v b) i acc).Sorted (ascIdxLt v) := by
  intro acc
  induction acc with
  | nil =>
    intro _ _
    simp [List.orderedInsert]
  | cons b l ihacc =>
    intro hs hfresh
    simp only [List.orderedInsert]
    split
    · rename_i hle
      refine List.sorted_cons.mpr ⟨?_, hs⟩
      intro c hc
      have hib : ascIdxLt v i b := by
        rcases lt_or_eq_of_le hle with h' | h'
        · exact Or.inl h'
        · exact Or.inr ⟨h', hfresh b (List.mem_cons_self b l)⟩
      rcases List.mem_cons.mp hc with rfl | hcl
      · exact hib
      · exact ascIdxLt_trans v hib (List.rel_of_sorted_cons hs c hcl)
    · rename_i hle
      push_neg at hle
      refine List.sorted_cons.mpr
        ⟨?_, ihacc hs.of_cons (fun j hj => hfresh j (List.mem_cons_of_mem b hj))⟩
      intro c hc
      rcases (List.mem_orderedInsert _).mp hc with rfl | hcl
      · exact Or.inl hle
      · exact List.rel_of_sorted_cons hs c hcl

/-- The stable insertion sort of a strictly increasing index list is sorted in
the value-then-index order. -/
theorem insertionSort_sorted_asc (v : ℕ → ℚ) :
    ∀ xs : List ℕ, xs.Sorted (· < ·) →
    (List.insertionSort (fun a b => v a ≤ v b) xs).Sorted (ascIdxLt v) := by
  intro xs
  induction xs with
  | nil =>
    intro _
    simp [List.insertionSort]
  | cons x xs ih =>
    intro hxs
    simp only [List.insertionSort]
    refine orderedInsert_sorted_asc v x _ (ih hxs.of_cons) ?_
    intro j hj
    exact List.rel_of_sorted_cons hxs j ((List.mem_insertionSort _).mp hj)

theorem np_argsort_perm (l : List ℚ) :
    (np_argsort l).Perm (List.range l.length) :=
  List.perm_insertionSort _ _

theorem np_argsort_sorted (l : List ℚ) :
    (np_argsort l).Sorted (ascIdxLt (fun k => l.getD k 0)) :=
  insertionSort_sorted_asc _ _ (List.sorted_lt_range _)

/-- The last `n` elements of a list, reversed, are the first `n` of its
reversal. -/
theorem drop_reverse_eq_take (s : List ℕ) (n : ℕ) :
    (s.drop (s.length - n)).reverse = s.reverse.take n := by
  have h := @List.reverse_take ℕ s.reverse n
  rw [List.reverse_reverse, List.length_reverse] at h
  calc (s.drop (s.length - n)).reverse
      = ((s.reverse.take n).reverse).reverse := by rw [h]
    _ = s.reverse.take n := List.reverse_reverse _

/-- C8 (counterexample).  On the tied distribution `[0.4, 0.4, 0.2]` the
derived top-3 view is `[1, 0, 2]`: the two entries of equal probability 0.4
appear with index 1 *before* index 0, not in their original index order.
(The Python slice `[::-1]` reverses the ascending argsort, so equal-valued
indices come out reversed.) -/
theorem top3_tie_order_cex :
    ([2/5, 2/5, 1/5] : List ℚ).getD 0 0 = ([2/5, 2/5, 1/5] : List ℚ).getD 1 0 ∧
    top3_idx [2/5, 2/5, 1/5] = [1, 0, 2] ∧
    top3_idx [2/5, 2/5, 1/5] ≠ [0, 1, 2] := by
  refine ⟨by norm_num, ?_, ?_⟩ <;>
    simp [top3_idx, np_argsort, List.insertionSort, List.orderedInsert,
      List.range_succ]
  <;> norm_num

/-- C8 (amended).  The top-3 view is derived by stably argsorting the
distribution ascending (the argsort is a permutation of the index range,
sorted by probability and, among equal probabilities, by original index),
taking the last three indices and reversing them; consequently the view is
sorted by *descending* probability and entries with equal probability appear
in *reverse* original index order. -/
theorem top3_view_sorted_desc (probs : List ℚ) :
    (np_argsort probs).Perm (List.range probs.length) ∧
    (np_argsort probs).Sorted (ascIdxLt (fun k => probs.getD k 0)) ∧
    top3_idx probs = (np_argsort probs).reverse.take 3 ∧
    (top3_idx probs).Sorted (fun i j => ascIdxLt (fun k => probs.getD k 0) j i) := by
  refine ⟨np_argsort_perm probs, np_argsort_sorted probs,
    drop_reverse_eq_take _ 3, ?_⟩
  have hdrop : ((np_argsort probs).drop ((np_argsort probs).length - 3)).Sorted
      (ascIdxLt (fun k => probs.getD k 0)) :=
    List.Pairwise.sublist (List.drop_sublist _ _) (np_argsort_sorted probs)
  exact List.pairwise_reverse.mpr hdrop
